import Mathlib

/-!
Verification development for the Rubik's Cube contract layer
(`src/Model/RubiksCube.h`).

The header under `src/` declares the abstract contract: the FACE / COLOR /
MOVE vocabulary, the 18 rotation operations (pure virtual, implemented by the
concrete array/bitboard models), and the shared operations `move`, `invert`,
`randomShuffleCube`, `isSolved`, `print` and the corner-encoder queries whose
bodies live in `RubiksCube.cpp` and the concrete model classes, which are not
part of the source tree here.  Consequently the operational definitions below
are modelled from the specification (`spec.md`): a cube state is the table of
its 54 facelet colors, addressed by (face, row, col) exactly as `getColor`
addresses them, and every move is the facelet permutation described by the
spec's planar layout (rows top-to-bottom, columns left-to-right with the face
toward the viewer).
-/

namespace RubiksVerify

/-- The six faces, in the declaration order of `RubiksCube::FACE`. -/
inductive FACE
  | UP
  | LEFT
  | FRONT
  | RIGHT
  | BACK
  | DOWN
deriving DecidableEq, Fintype, Repr

/-- The six sticker colors, in the declaration order of `RubiksCube::COLOR`. -/
inductive COLOR
  | WHITE
  | GREEN
  | RED
  | BLUE
  | ORANGE
  | YELLOW
deriving DecidableEq, Fintype, Repr

/-- The 18 moves, in the declaration order of `RubiksCube::MOVE`. -/
inductive MOVE
  | L
  | LPRIME
  | L2
  | R
  | RPRIME
  | R2
  | U
  | UPRIME
  | U2
  | D
  | DPRIME
  | D2
  | F
  | FPRIME
  | F2
  | B
  | BPRIME
  | B2
deriving DecidableEq, Fintype, Repr

/-- A facelet position: a face together with a row and column in 0..2,
exactly the address space of `getColor(face, row, col)`. -/
abbrev Pos := FACE × Fin 3 × Fin 3

/-- Modelled from the spec: the cube state is the full configuration of the
54 facelets (spec section 3, "Cube State"); the concrete storage encodings
(3D array, 1D array, bitboard) are outside the source tree, so a state is
embedded as the function answering every `getColor` query. -/
def CubeState := Pos → COLOR

/-- `getColor(face, row, col)`: the color occupying that cell. -/
def getColor (S : CubeState) (face : FACE) (row col : Fin 3) : COLOR :=
  S (face, row, col)

/-- The canonical solved-state color of each face (spec section 3:
WHITE=UP, GREEN=LEFT, RED=FRONT, BLUE=RIGHT, ORANGE=BACK, YELLOW=DOWN). -/
def solvedColor : FACE → COLOR
  | FACE.UP => COLOR.WHITE
  | FACE.LEFT => COLOR.GREEN
  | FACE.FRONT => COLOR.RED
  | FACE.RIGHT => COLOR.BLUE
  | FACE.BACK => COLOR.ORANGE
  | FACE.DOWN => COLOR.YELLOW

/-- Modelled from the spec: "default-constructs to the solved state". -/
def initState : CubeState := fun p => solvedColor p.1

/-- `getColorLetter`: first letter of the color name. -/
def getColorLetter : COLOR → Char
  | COLOR.WHITE => 'W'
  | COLOR.GREEN => 'G'
  | COLOR.RED => 'R'
  | COLOR.BLUE => 'B'
  | COLOR.ORANGE => 'O'
  | COLOR.YELLOW => 'Y'

/-- Index reversal `i ↦ 2 - i`, the `2 - i` re-indexing used when a strip of
three facelets changes direction during a quarter turn. -/
def inv3 (i : Fin 3) : Fin 3 := 2 - i

/-!
Source maps of the 18 rotations.  `xSrc p` is the position whose pre-move
color ends up at `p` after the move `x`, so the move acts on a state by
precomposition.  All maps are modelled from the spec: each rotation turns one
face's 3×3 grid a quarter (or half) turn and cycles the four adjacent
3-facelet strips, in the orientation fixed by the spec's planar layout
(U on top; L F R B in a row; D at the bottom; canonical colors W/G/R/B/O/Y).
-/

/-- Modelled from the spec: quarter-turn F (clockwise seen from the front).
Strip cycle: UP row 2 → RIGHT col 0 → DOWN row 0 → LEFT col 2 → UP row 2. -/
def fSrc : Pos → Pos
  | (FACE.FRONT, r, c) => (FACE.FRONT, inv3 c, r)
  | (FACE.UP, r, c) => if r = 2 then (FACE.LEFT, inv3 c, 2) else (FACE.UP, r, c)
  | (FACE.RIGHT, r, c) => if c = 0 then (FACE.UP, 2, r) else (FACE.RIGHT, r, c)
  | (FACE.DOWN, r, c) => if r = 0 then (FACE.RIGHT, inv3 c, 0) else (FACE.DOWN, r, c)
  | (FACE.LEFT, r, c) => if c = 2 then (FACE.DOWN, 0, r) else (FACE.LEFT, r, c)
  | (FACE.BACK, r, c) => (FACE.BACK, r, c)

/-- Modelled from the spec: quarter-turn F taken counter-clockwise. -/
def fPrimeSrc : Pos → Pos
  | (FACE.FRONT, r, c) => (FACE.FRONT, c, inv3 r)
  | (FACE.UP, r, c) => if r = 2 then (FACE.RIGHT, c, 0) else (FACE.UP, r, c)
  | (FACE.RIGHT, r, c) => if c = 0 then (FACE.DOWN, 0, inv3 r) else (FACE.RIGHT, r, c)
  | (FACE.DOWN, r, c) => if r = 0 then (FACE.LEFT, c, 2) else (FACE.DOWN, r, c)
  | (FACE.LEFT, r, c) => if c = 2 then (FACE.UP, 2, inv3 r) else (FACE.LEFT, r, c)
  | (FACE.BACK, r, c) => (FACE.BACK, r, c)

/-- Modelled from the spec: the half turn of the front layer. -/
def f2Src : Pos → Pos
  | (FACE.FRONT, r, c) => (FACE.FRONT, inv3 r, inv3 c)
  | (FACE.UP, r, c) => if r = 2 then (FACE.DOWN, 0, inv3 c) else (FACE.UP, r, c)
  | (FACE.RIGHT, r, c) => if c = 0 then (FACE.LEFT, inv3 r, 2) else (FACE.RIGHT, r, c)
  | (FACE.DOWN, r, c) => if r = 0 then (FACE.UP, 2, inv3 c) else (FACE.DOWN, r, c)
  | (FACE.LEFT, r, c) => if c = 2 then (FACE.RIGHT, inv3 r, 0) else (FACE.LEFT, r, c)
  | (FACE.BACK, r, c) => (FACE.BACK, r, c)

/-- Modelled from the spec: quarter-turn U (clockwise seen from above).
Strip cycle: FRONT row 0 → LEFT row 0 → BACK row 0 → RIGHT row 0 → FRONT. -/
def uSrc : Pos → Pos
  | (FACE.UP, r, c) => (FACE.UP, inv3 c, r)
  | (FACE.FRONT, r, c) => if r = 0 then (FACE.RIGHT, 0, c) else (FACE.FRONT, r, c)
  | (FACE.LEFT, r, c) => if r = 0 then (FACE.FRONT, 0, c) else (FACE.LEFT, r, c)
  | (FACE.BACK, r, c) => if r = 0 then (FACE.LEFT, 0, c) else (FACE.BACK, r, c)
  | (FACE.RIGHT, r, c) => if r = 0 then (FACE.BACK, 0, c) else (FACE.RIGHT, r, c)
  | (FACE.DOWN, r, c) => (FACE.DOWN, r, c)

/-- Modelled from the spec: quarter-turn U taken counter-clockwise. -/
def uPrimeSrc : Pos → Pos
  | (FACE.UP, r, c) => (FACE.UP, c, inv3 r)
  | (FACE.FRONT, r, c) => if r = 0 then (FACE.LEFT, 0, c) else (FACE.FRONT, r, c)
  | (FACE.LEFT, r, c) => if r = 0 then (FACE.BACK, 0, c) else (FACE.LEFT, r, c)
  | (FACE.BACK, r, c) => if r = 0 then (FACE.RIGHT, 0, c) else (FACE.BACK, r, c)
  | (FACE.RIGHT, r, c) => if r = 0 then (FACE.FRONT, 0, c) else (FACE.RIGHT, r, c)
  | (FACE.DOWN, r, c) => (FACE.DOWN, r, c)

/-- Modelled from the spec: the half turn of the top layer. -/
def u2Src : Pos → Pos
  | (FACE.UP, r, c) => (FACE.UP, inv3 r, inv3 c)
  | (FACE.FRONT, r, c) => if r = 0 then (FACE.BACK, 0, c) else (FACE.FRONT, r, c)
  | (FACE.LEFT, r, c) => if r = 0 then (FACE.RIGHT, 0, c) else (FACE.LEFT, r, c)
  | (FACE.BACK, r, c) => if r = 0 then (FACE.FRONT, 0, c) else (FACE.BACK, r, c)
  | (FACE.RIGHT, r, c) => if r = 0 then (FACE.LEFT, 0, c) else (FACE.RIGHT, r, c)
  | (FACE.DOWN, r, c) => (FACE.DOWN, r, c)

/-- Modelled from the spec: quarter-turn L (clockwise seen from the left).
Strip cycle: UP col 0 → FRONT col 0 → DOWN col 0 → BACK col 2 → UP col 0. -/
def lSrc : Pos → Pos
  | (FACE.LEFT, r, c) => (FACE.LEFT, inv3 c, r)
  | (FACE.FRONT, r, c) => if c = 0 then (FACE.UP, r, 0) else (FACE.FRONT, r, c)
  | (FACE.DOWN, r, c) => if c = 0 then (FACE.FRONT, r, 0) else (FACE.DOWN, r, c)
  | (FACE.BACK, r, c) => if c = 2 then (FACE.DOWN, inv3 r, 0) else (FACE.BACK, r, c)
  | (FACE.UP, r, c) => if c = 0 then (FACE.BACK, inv3 r, 2) else (FACE.UP, r, c)
  | (FACE.RIGHT, r, c) => (FACE.RIGHT, r, c)

/-- Modelled from the spec: quarter-turn L taken counter-clockwise. -/
def lPrimeSrc : Pos → Pos
  | (FACE.LEFT, r, c) => (FACE.LEFT, c, inv3 r)
  | (FACE.UP, r, c) => if c = 0 then (FACE.FRONT, r, 0) else (FACE.UP, r, c)
  | (FACE.FRONT, r, c) => if c = 0 then (FACE.DOWN, r, 0) else (FACE.FRONT, r, c)
  | (FACE.DOWN, r, c) => if c = 0 then (FACE.BACK, inv3 r, 2) else (FACE.DOWN, r, c)
  | (FACE.BACK, r, c) => if c = 2 then (FACE.UP, inv3 r, 0) else (FACE.BACK, r, c)
  | (FACE.RIGHT, r, c) => (FACE.RIGHT, r, c)

/-- Modelled from the spec: the half turn of the left layer. -/
def l2Src : Pos → Pos
  | (FACE.LEFT, r, c) => (FACE.LEFT, inv3 r, inv3 c)
  | (FACE.FRONT, r, c) => if c = 0 then (FACE.BACK, inv3 r, 2) else (FACE.FRONT, r, c)
  | (FACE.DOWN, r, c) => if c = 0 then (FACE.UP, r, 0) else (FACE.DOWN, r, c)
  | (FACE.BACK, r, c) => if c = 2 then (FACE.FRONT, inv3 r, 0) else (FACE.BACK, r, c)
  | (FACE.UP, r, c) => if c = 0 then (FACE.DOWN, r, 0) else (FACE.UP, r, c)
  | (FACE.RIGHT, r, c) => (FACE.RIGHT, r, c)

/-- Modelled from the spec: quarter-turn R (clockwise seen from the right).
Strip cycle: UP col 2 → BACK col 0 → DOWN col 2 → FRONT col 2 → UP col 2. -/
def rSrc : Pos → Pos
  | (FACE.RIGHT, r, c) => (FACE.RIGHT, inv3 c, r)
  | (FACE.BACK, r, c) => if c = 0 then (FACE.UP, inv3 r, 2) else (FACE.BACK, r, c)
  | (FACE.DOWN, r, c) => if c = 2 then (FACE.BACK, inv3 r, 0) else (FACE.DOWN, r, c)
  | (FACE.FRONT, r, c) => if c = 2 then (FACE.DOWN, r, 2) else (FACE.FRONT, r, c)
  | (FACE.UP, r, c) => if c = 2 then (FACE.FRONT, r, 2) else (FACE.UP, r, c)
  | (FACE.LEFT, r, c) => (FACE.LEFT, r, c)

/-- Modelled from the spec: quarter-turn R taken counter-clockwise. -/
def rPrimeSrc : Pos → Pos
  | (FACE.RIGHT, r, c) => (FACE.RIGHT, c, inv3 r)
  | (FACE.UP, r, c) => if c = 2 then (FACE.BACK, inv3 r, 0) else (FACE.UP, r, c)
  | (FACE.BACK, r, c) => if c = 0 then (FACE.DOWN, inv3 r, 2) else (FACE.BACK, r, c)
  | (FACE.DOWN, r, c) => if c = 2 then (FACE.FRONT, r, 2) else (FACE.DOWN, r, c)
  | (FACE.FRONT, r, c) => if c = 2 then (FACE.UP, r, 2) else (FACE.FRONT, r, c)
  | (FACE.LEFT, r, c) => (FACE.LEFT, r, c)

/-- Modelled from the spec: the half turn of the right layer. -/
def r2Src : Pos → Pos
  | (FACE.RIGHT, r, c) => (FACE.RIGHT, inv3 r, inv3 c)
  | (FACE.BACK, r, c) => if c = 0 then (FACE.FRONT, inv3 r, 2) else (FACE.BACK, r, c)
  | (FACE.DOWN, r, c) => if c = 2 then (FACE.UP, r, 2) else (FACE.DOWN, r, c)
  | (FACE.FRONT, r, c) => if c = 2 then (FACE.BACK, inv3 r, 0) else (FACE.FRONT, r, c)
  | (FACE.UP, r, c) => if c = 2 then (FACE.DOWN, r, 2) else (FACE.UP, r, c)
  | (FACE.LEFT, r, c) => (FACE.LEFT, r, c)

/-- Modelled from the spec: quarter-turn D (clockwise seen from below).
Strip cycle: FRONT row 2 → RIGHT row 2 → BACK row 2 → LEFT row 2 → FRONT. -/
def dSrc : Pos → Pos
  | (FACE.DOWN, r, c) => (FACE.DOWN, inv3 c, r)
  | (FACE.RIGHT, r, c) => if r = 2 then (FACE.FRONT, 2, c) else (FACE.RIGHT, r, c)
  | (FACE.BACK, r, c) => if r = 2 then (FACE.RIGHT, 2, c) else (FACE.BACK, r, c)
  | (FACE.LEFT, r, c) => if r = 2 then (FACE.BACK, 2, c) else (FACE.LEFT, r, c)
  | (FACE.FRONT, r, c) => if r = 2 then (FACE.LEFT, 2, c) else (FACE.FRONT, r, c)
  | (FACE.UP, r, c) => (FACE.UP, r, c)

/-- Modelled from the spec: quarter-turn D taken counter-clockwise. -/
def dPrimeSrc : Pos → Pos
  | (FACE.DOWN, r, c) => (FACE.DOWN, c, inv3 r)
  | (FACE.FRONT, r, c) => if r = 2 then (FACE.RIGHT, 2, c) else (FACE.FRONT, r, c)
  | (FACE.RIGHT, r, c) => if r = 2 then (FACE.BACK, 2, c) else (FACE.RIGHT, r, c)
  | (FACE.BACK, r, c) => if r = 2 then (FACE.LEFT, 2, c) else (FACE.BACK, r, c)
  | (FACE.LEFT, r, c) => if r = 2 then (FACE.FRONT, 2, c) else (FACE.LEFT, r, c)
  | (FACE.UP, r, c) => (FACE.UP, r, c)

/-- Modelled from the spec: the half turn of the bottom layer. -/
def d2Src : Pos → Pos
  | (FACE.DOWN, r, c) => (FACE.DOWN, inv3 r, inv3 c)
  | (FACE.RIGHT, r, c) => if r = 2 then (FACE.LEFT, 2, c) else (FACE.RIGHT, r, c)
  | (FACE.LEFT, r, c) => if r = 2 then (FACE.RIGHT, 2, c) else (FACE.LEFT, r, c)
  | (FACE.FRONT, r, c) => if r = 2 then (FACE.BACK, 2, c) else (FACE.FRONT, r, c)
  | (FACE.BACK, r, c) => if r = 2 then (FACE.FRONT, 2, c) else (FACE.BACK, r, c)
  | (FACE.UP, r, c) => (FACE.UP, r, c)

/-- Modelled from the spec: quarter-turn B (clockwise seen from behind).
Strip cycle: UP row 0 → LEFT col 0 → DOWN row 2 → RIGHT col 2 → UP row 0. -/
def bSrc : Pos → Pos
  | (FACE.BACK, r, c) => (FACE.BACK, inv3 c, r)
  | (FACE.LEFT, r, c) => if c = 0 then (FACE.UP, 0, inv3 r) else (FACE.LEFT, r, c)
  | (FACE.DOWN, r, c) => if r = 2 then (FACE.LEFT, c, 0) else (FACE.DOWN, r, c)
  | (FACE.RIGHT, r, c) => if c = 2 then (FACE.DOWN, 2, inv3 r) else (FACE.RIGHT, r, c)
  | (FACE.UP, r, c) => if r = 0 then (FACE.RIGHT, c, 2) else (FACE.UP, r, c)
  | (FACE.FRONT, r, c) => (FACE.FRONT, r, c)

/-- Modelled from the spec: quarter-turn B taken counter-clockwise. -/
def bPrimeSrc : Pos → Pos
  | (FACE.BACK, r, c) => (FACE.BACK, c, inv3 r)
  | (FACE.UP, r, c) => if r = 0 then (FACE.LEFT, inv3 c, 0) else (FACE.UP, r, c)
  | (FACE.LEFT, r, c) => if c = 0 then (FACE.DOWN, 2, r) else (FACE.LEFT, r, c)
  | (FACE.DOWN, r, c) => if r = 2 then (FACE.RIGHT, inv3 c, 2) else (FACE.DOWN, r, c)
  | (FACE.RIGHT, r, c) => if c = 2 then (FACE.UP, 0, r) else (FACE.RIGHT, r, c)
  | (FACE.FRONT, r, c) => (FACE.FRONT, r, c)

/-- Modelled from the spec: the half turn of the back layer. -/
def b2Src : Pos → Pos
  | (FACE.BACK, r, c) => (FACE.BACK, inv3 r, inv3 c)
  | (FACE.LEFT, r, c) => if c = 0 then (FACE.RIGHT, inv3 r, 2) else (FACE.LEFT, r, c)
  | (FACE.DOWN, r, c) => if r = 2 then (FACE.UP, 0, inv3 c) else (FACE.DOWN, r, c)
  | (FACE.RIGHT, r, c) => if c = 2 then (FACE.LEFT, inv3 r, 0) else (FACE.RIGHT, r, c)
  | (FACE.UP, r, c) => if r = 0 then (FACE.DOWN, 2, inv3 c) else (FACE.UP, r, c)
  | (FACE.FRONT, r, c) => (FACE.FRONT, r, c)

/-!
The 18 rotation operations (`RubiksCube::f`, `fPrime`, `f2`, ...), each a
state transformer obtained by precomposing the state with its source map.
-/

/-- Modelled from the spec: rotation `f()`. -/
def f (S : CubeState) : CubeState := fun p => S (fSrc p)

/-- Modelled from the spec: rotation `fPrime()`. -/
def fPrime (S : CubeState) : CubeState := fun p => S (fPrimeSrc p)

/-- Modelled from the spec: rotation `f2()`. -/
def f2 (S : CubeState) : CubeState := fun p => S (f2Src p)

/-- Modelled from the spec: rotation `u()`. -/
def u (S : CubeState) : CubeState := fun p => S (uSrc p)

/-- Modelled from the spec: rotation `uPrime()`. -/
def uPrime (S : CubeState) : CubeState := fun p => S (uPrimeSrc p)

/-- Modelled from the spec: rotation `u2()`. -/
def u2 (S : CubeState) : CubeState := fun p => S (u2Src p)

/-- Modelled from the spec: rotation `l()`. -/
def l (S : CubeState) : CubeState := fun p => S (lSrc p)

/-- Modelled from the spec: rotation `lPrime()`. -/
def lPrime (S : CubeState) : CubeState := fun p => S (lPrimeSrc p)

/-- Modelled from the spec: rotation `l2()`. -/
def l2 (S : CubeState) : CubeState := fun p => S (l2Src p)

/-- Modelled from the spec: rotation `r()`. -/
def r (S : CubeState) : CubeState := fun p => S (rSrc p)

/-- Modelled from the spec: rotation `rPrime()`. -/
def rPrime (S : CubeState) : CubeState := fun p => S (rPrimeSrc p)

/-- Modelled from the spec: rotation `r2()`. -/
def r2 (S : CubeState) : CubeState := fun p => S (r2Src p)

/-- Modelled from the spec: rotation `d()`. -/
def d (S : CubeState) : CubeState := fun p => S (dSrc p)

/-- Modelled from the spec: rotation `dPrime()`. -/
def dPrime (S : CubeState) : CubeState := fun p => S (dPrimeSrc p)

/-- Modelled from the spec: rotation `d2()`. -/
def d2 (S : CubeState) : CubeState := fun p => S (d2Src p)

/-- Modelled from the spec: rotation `b()`. -/
def b (S : CubeState) : CubeState := fun p => S (bSrc p)

/-- Modelled from the spec: rotation `bPrime()`. -/
def bPrime (S : CubeState) : CubeState := fun p => S (bPrimeSrc p)

/-- Modelled from the spec: rotation `b2()`. -/
def b2 (S : CubeState) : CubeState := fun p => S (b2Src p)

/-- Modelled from the spec: `RubiksCube::move(ind)` is a closed dispatch
table over the 18 enum values, each case calling one rotation. -/
def move : MOVE → CubeState → CubeState
  | MOVE.L => l
  | MOVE.LPRIME => lPrime
  | MOVE.L2 => l2
  | MOVE.R => r
  | MOVE.RPRIME => rPrime
  | MOVE.R2 => r2
  | MOVE.U => u
  | MOVE.UPRIME => uPrime
  | MOVE.U2 => u2
  | MOVE.D => d
  | MOVE.DPRIME => dPrime
  | MOVE.D2 => d2
  | MOVE.F => f
  | MOVE.FPRIME => fPrime
  | MOVE.F2 => f2
  | MOVE.B => b
  | MOVE.BPRIME => bPrime
  | MOVE.B2 => b2

/-- The source map of each move, the dispatch table at the level of facelet
positions. -/
def moveSrc : MOVE → Pos → Pos
  | MOVE.L => lSrc
  | MOVE.LPRIME => lPrimeSrc
  | MOVE.L2 => l2Src
  | MOVE.R => rSrc
  | MOVE.RPRIME => rPrimeSrc
  | MOVE.R2 => r2Src
  | MOVE.U => uSrc
  | MOVE.UPRIME => uPrimeSrc
  | MOVE.U2 => u2Src
  | MOVE.D => dSrc
  | MOVE.DPRIME => dPrimeSrc
  | MOVE.D2 => d2Src
  | MOVE.F => fSrc
  | MOVE.FPRIME => fPrimeSrc
  | MOVE.F2 => f2Src
  | MOVE.B => bSrc
  | MOVE.BPRIME => bPrimeSrc
  | MOVE.B2 => b2Src

/-- Modelled from the spec: the move-level inversion used by
`RubiksCube::invert` — a quarter turn maps to its PRIME and back, a half
turn to itself. -/
def invertMove : MOVE → MOVE
  | MOVE.L => MOVE.LPRIME
  | MOVE.LPRIME => MOVE.L
  | MOVE.L2 => MOVE.L2
  | MOVE.R => MOVE.RPRIME
  | MOVE.RPRIME => MOVE.R
  | MOVE.R2 => MOVE.R2
  | MOVE.U => MOVE.UPRIME
  | MOVE.UPRIME => MOVE.U
  | MOVE.U2 => MOVE.U2
  | MOVE.D => MOVE.DPRIME
  | MOVE.DPRIME => MOVE.D
  | MOVE.D2 => MOVE.D2
  | MOVE.F => MOVE.FPRIME
  | MOVE.FPRIME => MOVE.F
  | MOVE.F2 => MOVE.F2
  | MOVE.B => MOVE.BPRIME
  | MOVE.BPRIME => MOVE.B
  | MOVE.B2 => MOVE.B2

/-- Modelled from the spec: `RubiksCube::invert(ind)` applies the move that
undoes `ind` to the state (chainable, like `move`). -/
def invert (m : MOVE) (S : CubeState) : CubeState := move (invertMove m) S

/-- The six faces, enumerated. -/
def allFaces : List FACE :=
  [FACE.UP, FACE.LEFT, FACE.FRONT, FACE.RIGHT, FACE.BACK, FACE.DOWN]

/-- The three row/column indices. -/
def allIdx : List (Fin 3) := [0, 1, 2]

/-- The 18-move alphabet, in enum order. -/
def allMoves : List MOVE :=
  [MOVE.L, MOVE.LPRIME, MOVE.L2, MOVE.R, MOVE.RPRIME, MOVE.R2,
   MOVE.U, MOVE.UPRIME, MOVE.U2, MOVE.D, MOVE.DPRIME, MOVE.D2,
   MOVE.F, MOVE.FPRIME, MOVE.F2, MOVE.B, MOVE.BPRIME, MOVE.B2]

/-- Modelled from the spec: `isSolved()` loops over the six faces and each
face's 9 cells, comparing every cell with that face's own canonical
solved-state color. -/
def isSolved (S : CubeState) : Bool :=
  allFaces.all fun fc => allIdx.all fun row => allIdx.all fun col =>
    decide (getColor S fc row col = solvedColor fc)

/-- Apply a list of moves in order via `move` (left to right). -/
def applyMoves (ms : List MOVE) (S : CubeState) : CubeState :=
  ms.foldl (fun s m => move m s) S

/-- The enum-order decoding of a random draw in 0..17 into a `MOVE`,
as in casting a value mod 18 to the `MOVE` enum. -/
def moveOfFin (k : Fin 18) : MOVE :=
  allMoves.getD k.val MOVE.L

/-- Modelled from the spec: the body of the shuffle loop.  `shuffleFrom rnd i
n S` performs `n` more draws starting at draw index `i`: each step draws a
value from the seeded random stream `rnd`, decodes it to a move, applies it
via `move`, and records it.  Returns the ordered list of moves performed
together with the final state. -/
def shuffleFrom (rnd : Nat → Fin 18) : Nat → Nat → CubeState → List MOVE × CubeState
  | _, 0, S => ([], S)
  | i, Nat.succ n, S =>
      (moveOfFin (rnd i) :: (shuffleFrom rnd (i + 1) n (move (moveOfFin (rnd i)) S)).1,
       (shuffleFrom rnd (i + 1) n (move (moveOfFin (rnd i)) S)).2)

/-- Modelled from the spec: `randomShuffleCube(times)` draws `times` moves
from the 18-move alphabet using a seedable random source (threaded here as
the stream `rnd` induced by the seed), applies each in sequence via `move`,
and returns the exact ordered sequence of moves applied.  The final state is
returned alongside, standing for the mutated cube. -/
def randomShuffleCube (rnd : Nat → Fin 18) (times : Nat) (S : CubeState) :
    List MOVE × CubeState :=
  shuffleFrom rnd 0 times S

/-- One three-letter row of a face, as printed. -/
def rowString (S : CubeState) (fc : FACE) (row : Fin 3) : String :=
  String.mk [getColorLetter (getColor S fc row 0), ' ',
             getColorLetter (getColor S fc row 1), ' ',
             getColorLetter (getColor S fc row 2)]

/-- Modelled from the spec: `print()` renders the cube in the fixed planar
cross layout (U on top; L F R B in a row; D at the bottom), one letter per
cell via `getColorLetter`.  It is a pure consumer of `getColor`. -/
def printCube (S : CubeState) : String :=
  "        " ++ rowString S FACE.UP 0 ++ "\n" ++
  "        " ++ rowString S FACE.UP 1 ++ "\n" ++
  "        " ++ rowString S FACE.UP 2 ++ "\n" ++
  rowString S FACE.LEFT 0 ++ "  " ++ rowString S FACE.FRONT 0 ++ "  " ++
    rowString S FACE.RIGHT 0 ++ "  " ++ rowString S FACE.BACK 0 ++ "\n" ++
  rowString S FACE.LEFT 1 ++ "  " ++ rowString S FACE.FRONT 1 ++ "  " ++
    rowString S FACE.RIGHT 1 ++ "  " ++ rowString S FACE.BACK 1 ++ "\n" ++
  rowString S FACE.LEFT 2 ++ "  " ++ rowString S FACE.FRONT 2 ++ "  " ++
    rowString S FACE.RIGHT 2 ++ "  " ++ rowString S FACE.BACK 2 ++ "\n" ++
  "        " ++ rowString S FACE.DOWN 0 ++ "\n" ++
  "        " ++ rowString S FACE.DOWN 1 ++ "\n" ++
  "        " ++ rowString S FACE.DOWN 2 ++ "\n"

/-- Modelled from the spec: the three facelet positions of each of the 8
corner cubies, in a fixed, representation-independent order.  Corners are
enumerated top layer first (UFR, UFL, UBL, UBR) then bottom layer
(DFR, DFL, DBR, DBL), each corner listing its UP/DOWN facelet first. -/
def cornerPositions (ind : Fin 8) : List Pos :=
  match ind with
  | 0 => [(FACE.UP, 2, 2), (FACE.FRONT, 0, 2), (FACE.RIGHT, 0, 0)]
  | 1 => [(FACE.UP, 2, 0), (FACE.FRONT, 0, 0), (FACE.LEFT, 0, 2)]
  | 2 => [(FACE.UP, 0, 0), (FACE.BACK, 0, 2), (FACE.LEFT, 0, 0)]
  | 3 => [(FACE.UP, 0, 2), (FACE.BACK, 0, 0), (FACE.RIGHT, 0, 2)]
  | 4 => [(FACE.DOWN, 0, 2), (FACE.FRONT, 2, 2), (FACE.RIGHT, 2, 0)]
  | 5 => [(FACE.DOWN, 0, 0), (FACE.FRONT, 2, 0), (FACE.LEFT, 2, 2)]
  | 6 => [(FACE.DOWN, 2, 2), (FACE.BACK, 2, 0), (FACE.RIGHT, 2, 2)]
  | 7 => [(FACE.DOWN, 2, 0), (FACE.BACK, 2, 2), (FACE.LEFT, 2, 0)]

/-- The three colors currently on corner `ind`, in canonical reading order. -/
def cornerColors (S : CubeState) (ind : Fin 8) : List COLOR :=
  (cornerPositions ind).map S

/-- Modelled from the spec: `getCornerColorString(ind)`, the 3-letter
signature of corner `ind`'s current colors. -/
def getCornerColorString (S : CubeState) (ind : Fin 8) : String :=
  String.mk ((cornerColors S ind).map getColorLetter)

/-- Two 3-color signatures match ignoring orientation when they carry the
same set of colors. -/
def sameColorSet (a bs : List COLOR) : Bool :=
  (a.all fun col => bs.contains col) && (bs.all fun col => a.contains col)

/-- The 8 known solved-corner signatures: the colors corner `j` carries in
the solved state. -/
def solvedCornerColors (j : Fin 8) : List COLOR :=
  cornerColors initState j

/-- Modelled from the spec: `getCornerIndex(ind)` determines which of the 8
solved-corner identities occupies position `ind` by matching the corner's
color signature, ignoring orientation, against the 8 known solved-corner
signatures; `none` is the lookup failure surfaced to the caller when no
signature matches. -/
def getCornerIndex (S : CubeState) (ind : Fin 8) : Option (Fin 8) :=
  (List.finRange 8).find? fun j =>
    sameColorSet (cornerColors S ind) (solvedCornerColors j)

/-- Modelled from the spec: `getCornerOrientation(ind)` returns the position
(0, 1 or 2) within the corner's signature of the facelet carrying the
UP/DOWN-layer color (WHITE or YELLOW), the twist offset relative to the
solved arrangement; `none` surfaces the failure on a corrupted corner with
no such facelet. -/
def getCornerOrientation (S : CubeState) (ind : Fin 8) : Option (Fin 3) :=
  (List.finRange 3).find? fun i =>
    decide ((cornerColors S ind).getD i.val COLOR.RED = COLOR.WHITE) ||
    decide ((cornerColors S ind).getD i.val COLOR.RED = COLOR.YELLOW)

/-- The query operations of the contract: exactly the member functions the
header declares `const` (`getColor`, `isSolved`, `print`,
`getCornerColorString`, `getCornerIndex`, `getCornerOrientation`). -/
inductive Query
  | colorQ (fc : FACE) (row col : Fin 3)
  | solvedQ
  | printQ
  | cornerStringQ (ind : Fin 8)
  | cornerIndexQ (ind : Fin 8)
  | cornerOrientationQ (ind : Fin 8)

/-- The possible answers of the query operations. -/
inductive QueryAnswer
  | colorA (col : COLOR)
  | boolA (bv : Bool)
  | stringA (s : String)
  | indexA (o : Option (Fin 8))
  | orientationA (o : Option (Fin 3))

/-- The state-passing semantics of invoking one query on the cube object:
the call returns the state of the object after the call together with the
answer.  Each case runs the corresponding (read-only) operation. -/
def runQuery : Query → CubeState → CubeState × QueryAnswer
  | Query.colorQ fc row col, S => (S, QueryAnswer.colorA (getColor S fc row col))
  | Query.solvedQ, S => (S, QueryAnswer.boolA (isSolved S))
  | Query.printQ, S => (S, QueryAnswer.stringA (printCube S))
  | Query.cornerStringQ ind, S => (S, QueryAnswer.stringA (getCornerColorString S ind))
  | Query.cornerIndexQ ind, S => (S, QueryAnswer.indexA (getCornerIndex S ind))
  | Query.cornerOrientationQ ind, S => (S, QueryAnswer.orientationA (getCornerOrientation S ind))

/-- The face a move rotates. -/
def faceOf : MOVE → FACE
  | MOVE.L => FACE.LEFT
  | MOVE.LPRIME => FACE.LEFT
  | MOVE.L2 => FACE.LEFT
  | MOVE.R => FACE.RIGHT
  | MOVE.RPRIME => FACE.RIGHT
  | MOVE.R2 => FACE.RIGHT
  | MOVE.U => FACE.UP
  | MOVE.UPRIME => FACE.UP
  | MOVE.U2 => FACE.UP
  | MOVE.D => FACE.DOWN
  | MOVE.DPRIME => FACE.DOWN
  | MOVE.D2 => FACE.DOWN
  | MOVE.F => FACE.FRONT
  | MOVE.FPRIME => FACE.FRONT
  | MOVE.F2 => FACE.FRONT
  | MOVE.B => FACE.BACK
  | MOVE.BPRIME => FACE.BACK
  | MOVE.B2 => FACE.BACK

/-- Whether two faces are opposite faces of the cube. -/
def oppositeFace : FACE → FACE → Bool
  | FACE.LEFT, FACE.RIGHT => true
  | FACE.RIGHT, FACE.LEFT => true
  | FACE.UP, FACE.DOWN => true
  | FACE.DOWN, FACE.UP => true
  | FACE.FRONT, FACE.BACK => true
  | FACE.BACK, FACE.FRONT => true
  | _, _ => false

/-- Whether two moves act on opposite faces (any of the quarter, prime and
half variants of the two faces). -/
def oppositeMoves (m1 m2 : MOVE) : Bool :=
  oppositeFace (faceOf m1) (faceOf m2)

/-- The 4-move commutator sequence [R, U, R PRIME, U PRIME]. -/
def sexySeq : List MOVE := [MOVE.R, MOVE.U, MOVE.RPRIME, MOVE.UPRIME]

/-!  Helper lemmas shared by the claim theorems. -/

/-- Every move acts on the state by precomposition with its source map. -/
theorem move_src_apply (m : MOVE) (S : CubeState) :
    move m S = fun p => S (moveSrc m p) := by
  cases m <;> rfl

/-- Applying the source map of a move after the source map of its inverse
move is the identity on facelet positions. -/
theorem src_roundtrip : ∀ (m : MOVE) (p : Pos),
    moveSrc m (moveSrc (invertMove m) p) = p := by decide

/-- Each half-turn source map is the square of its quarter-turn source map. -/
theorem sq_src : ∀ p : Pos,
    f2Src p = fSrc (fSrc p) ∧ u2Src p = uSrc (uSrc p) ∧ l2Src p = lSrc (lSrc p) ∧
    r2Src p = rSrc (rSrc p) ∧ d2Src p = dSrc (dSrc p) ∧ b2Src p = bSrc (bSrc p) := by
  decide

/-- Source maps of moves on opposite faces commute on every position. -/
theorem opp_src_comm : ∀ (m1 m2 : MOVE), oppositeMoves m1 m2 = true →
    ∀ p : Pos, moveSrc m1 (moveSrc m2 p) = moveSrc m2 (moveSrc m1 p) := by decide

/-- `allFaces` enumerates every face. -/
theorem mem_allFaces : ∀ fc : FACE, fc ∈ allFaces := by decide

/-- `allIdx` enumerates every row/column index. -/
theorem mem_allIdx : ∀ i : Fin 3, i ∈ allIdx := by decide

/-- `allMoves` enumerates the whole 18-move alphabet. -/
theorem mem_allMoves : ∀ m : MOVE, m ∈ allMoves := by decide

/-- The shuffle loop performs exactly the announced number of draws and its
returned move list replays to its returned state. -/
theorem shuffleFrom_spec (rnd : Nat → Fin 18) :
    ∀ (n i : Nat) (S : CubeState),
      (shuffleFrom rnd i n S).1.length = n ∧
      applyMoves (shuffleFrom rnd i n S).1 S = (shuffleFrom rnd i n S).2 := by
  intro n
  induction n with
  | zero => intro i S; exact ⟨rfl, rfl⟩
  | succ n ih =>
    intro i S
    refine ⟨?_, ?_⟩
    · show (moveOfFin (rnd i) ::
          (shuffleFrom rnd (i + 1) n (move (moveOfFin (rnd i)) S)).1).length = n + 1
      simp [(ih (i + 1) (move (moveOfFin (rnd i)) S)).1]
    · show applyMoves (moveOfFin (rnd i) ::
          (shuffleFrom rnd (i + 1) n (move (moveOfFin (rnd i)) S)).1) S =
          (shuffleFrom rnd (i + 1) n (move (moveOfFin (rnd i)) S)).2
      simp only [applyMoves, List.foldl_cons]
      exact (ih (i + 1) (move (moveOfFin (rnd i)) S)).2

/-- Sanity: every single move scrambles the solved cube — no move operation
is the identity. -/
theorem no_move_is_identity : ∀ m : MOVE, isSolved (move m initState) = false := by
  decide

/-- Sanity: the spec's facelet-migration example.  After applying F to the
solved cube, `getColor(UP, 2, 0)` shows the color that was on the LEFT face
before the move. -/
theorem f_moves_left_color_to_up :
    getColor (move MOVE.F initState) FACE.UP 2 0 = getColor initState FACE.LEFT 0 2 := by
  decide

/-!  The claim theorems. -/

/-- C1: for every move m and every cube state S, applying `move(m)` and then
`invert(m)` yields a state bit-exactly equal to S (the round-trip law). -/
theorem move_invert_roundtrip (m : MOVE) (S : CubeState) :
    invert m (move m S) = S := by
  funext p
  simp only [invert, move_src_apply]
  exact congrArg S (src_roundtrip m p)

/-- C2: for every face and every cube state, the half-turn move yields a
state equal — hence observably equivalent, every query being a function of
the state — to applying that face's quarter-turn move twice. -/
theorem half_turn_eq_quarter_twice (S : CubeState) :
    f2 S = f (f S) ∧ u2 S = u (u S) ∧ l2 S = l (l S) ∧
    r2 S = r (r S) ∧ d2 S = d (d S) ∧ b2 S = b (b S) ∧
    ∀ q : Query, runQuery q (f2 S) = runQuery q (f (f S)) := by
  have hf : f2 S = f (f S) := funext fun p => congrArg S (sq_src p).1
  have hu : u2 S = u (u S) := funext fun p => congrArg S (sq_src p).2.1
  have hl : l2 S = l (l S) := funext fun p => congrArg S (sq_src p).2.2.1
  have hr : r2 S = r (r S) := funext fun p => congrArg S (sq_src p).2.2.2.1
  have hd : d2 S = d (d S) := funext fun p => congrArg S (sq_src p).2.2.2.2.1
  have hb : b2 S = b (b S) := funext fun p => congrArg S (sq_src p).2.2.2.2.2
  exact ⟨hf, hu, hl, hr, hd, hb, fun q => by rw [hf]⟩

/-- C3: `invert` maps every quarter-turn move to its PRIME and vice versa,
and every half-turn move to itself. -/
theorem invert_move_table :
    invertMove MOVE.L = MOVE.LPRIME ∧ invertMove MOVE.LPRIME = MOVE.L ∧
    invertMove MOVE.L2 = MOVE.L2 ∧
    invertMove MOVE.R = MOVE.RPRIME ∧ invertMove MOVE.RPRIME = MOVE.R ∧
    invertMove MOVE.R2 = MOVE.R2 ∧
    invertMove MOVE.U = MOVE.UPRIME ∧ invertMove MOVE.UPRIME = MOVE.U ∧
    invertMove MOVE.U2 = MOVE.U2 ∧
    invertMove MOVE.D = MOVE.DPRIME ∧ invertMove MOVE.DPRIME = MOVE.D ∧
    invertMove MOVE.D2 = MOVE.D2 ∧
    invertMove MOVE.F = MOVE.FPRIME ∧ invertMove MOVE.FPRIME = MOVE.F ∧
    invertMove MOVE.F2 = MOVE.F2 ∧
    invertMove MOVE.B = MOVE.BPRIME ∧ invertMove MOVE.BPRIME = MOVE.B ∧
    invertMove MOVE.B2 = MOVE.B2 := by
  decide

/-- C4: `isSolved` returns true exactly when each face's 9 cells all carry
that face's own canonical solved-state color, and the default-constructed
state is solved. -/
theorem isSolved_iff_uniform :
    (∀ S : CubeState, isSolved S = true ↔
      ∀ (fc : FACE) (row col : Fin 3), getColor S fc row col = solvedColor fc) ∧
    isSolved initState = true := by
  constructor
  · intro S
    constructor
    · intro h fc row col
      have h1 := (List.all_eq_true.mp h) fc (mem_allFaces fc)
      have h2 := (List.all_eq_true.mp h1) row (mem_allIdx row)
      have h3 := (List.all_eq_true.mp h2) col (mem_allIdx col)
      exact of_decide_eq_true h3
    · intro h
      refine List.all_eq_true.mpr ?_
      intro fc _
      refine List.all_eq_true.mpr ?_
      intro row _
      refine List.all_eq_true.mpr ?_
      intro col _
      exact decide_eq_true (h fc row col)
  · decide

/-- C4 witness: the iff applied at the solved state. -/
theorem isSolved_iff_uniform_witness : isSolved initState = true :=
  (isSolved_iff_uniform.1 initState).mpr (by decide)

/-- C5: `randomShuffleCube(n)` returns exactly n moves, every returned move
belongs to the 18-move alphabet, and replaying the returned sequence via
`move` from the pre-shuffle state reproduces the exact post-shuffle state. -/
theorem randomShuffle_spec (rnd : Nat → Fin 18) (times : Nat) (S : CubeState) :
    (randomShuffleCube rnd times S).1.length = times ∧
    applyMoves (randomShuffleCube rnd times S).1 S = (randomShuffleCube rnd times S).2 ∧
    ∀ m : MOVE, m ∈ (randomShuffleCube rnd times S).1 → m ∈ allMoves :=
  ⟨(shuffleFrom_spec rnd times 0 S).1, (shuffleFrom_spec rnd times 0 S).2,
   fun m _ => mem_allMoves m⟩

/-- C5 witness: a concrete 3-draw shuffle of the solved cube. -/
theorem randomShuffle_spec_witness :
    (randomShuffleCube (fun _ => (0 : Fin 18)) 3 initState).1.length = 3 ∧
    MOVE.L ∈ allMoves :=
  ⟨(randomShuffle_spec (fun _ => (0 : Fin 18)) 3 initState).1,
   (randomShuffle_spec (fun _ => (0 : Fin 18)) 3 initState).2.2 MOVE.L (by decide)⟩

/-- C6: `getCornerIndex(ind)` returns some solved-corner identity exactly
when that identity's signature matches the corner's signature ignoring
orientation; when no signature matches, the failure is surfaced as `none`
(never swallowed or defaulted); and the 8 known signatures are pairwise
distinct, so a returned match is the unique one. -/
theorem corner_index_spec (S : CubeState) (ind : Fin 8) :
    (∀ j : Fin 8, getCornerIndex S ind = some j →
      sameColorSet (cornerColors S ind) (solvedCornerColors j) = true) ∧
    (getCornerIndex S ind = none ↔
      ∀ j : Fin 8, sameColorSet (cornerColors S ind) (solvedCornerColors j) = false) ∧
    (∀ j k : Fin 8, sameColorSet (solvedCornerColors j) (solvedCornerColors k) = true →
      j = k) := by
  refine ⟨?_, ⟨?_, ?_⟩, by decide⟩
  · intro j hj
    have hj2 : (List.finRange 8).find?
        (fun j => sameColorSet (cornerColors S ind) (solvedCornerColors j)) = some j := hj
    have hp := List.find?_some hj2
    exact hp
  · intro hn j
    have h := List.find?_eq_none.mp hn j (List.mem_finRange j)
    exact Bool.eq_false_iff.mpr h
  · intro hall
    refine List.find?_eq_none.mpr ?_
    intro j _
    simp [hall j]

/-- C6 witness: in the solved cube, corner position 0 matches solved
identity 0. -/
theorem corner_index_spec_witness :
    sameColorSet (cornerColors initState 0) (solvedCornerColors 0) = true :=
  (corner_index_spec initState 0).1 0 (by decide)

/-- C7: moves on opposite faces commute — for every state and every pair of
moves acting on opposite faces (quarter, prime or half variants of L/R, U/D,
F/B), the two application orders give the same state. -/
theorem opposite_moves_commute (m1 m2 : MOVE) (S : CubeState)
    (h : oppositeMoves m1 m2 = true) :
    move m1 (move m2 S) = move m2 (move m1 S) := by
  funext p
  simp only [move_src_apply]
  exact (congrArg S (opp_src_comm m1 m2 h p)).symm

/-- C7 witness: L and R commute on the solved cube. -/
theorem opposite_moves_commute_witness :
    oppositeMoves MOVE.L MOVE.R = true ∧
    move MOVE.L (move MOVE.R initState) = move MOVE.R (move MOVE.L initState) :=
  ⟨by decide, opposite_moves_commute MOVE.L MOVE.R initState (by decide)⟩

/-- C8: starting from the default-constructed solved state, applying the
4-move sequence [R, U, R PRIME, U PRIME] six times in a row returns the cube
to a state satisfying `isSolved`. -/
theorem sexy_six_restores_solved :
    isSolved (applyMoves
      (sexySeq ++ sexySeq ++ sexySeq ++ sexySeq ++ sexySeq ++ sexySeq)
      initState) = true := by
  decide

/-- C9: `randomShuffleCube` depends only on the seeded random stream and the
starting state — two runs with the same stream and equal starting states
return the same move sequence and final state — and the decoding of draws is
a bijection onto the 18-move alphabet, so a uniform draw in 0..17 selects
each move with equal frequency (exactly one draw value per move). -/
theorem shuffle_seedable_uniform :
    (∀ (rnd : Nat → Fin 18) (times : Nat) (S T : CubeState), S = T →
      randomShuffleCube rnd times S = randomShuffleCube rnd times T) ∧
    (∀ m : MOVE,
      ((Finset.univ : Finset (Fin 18)).filter fun k => moveOfFin k = m).card = 1) :=
  ⟨fun rnd times S T h => by rw [h], by decide⟩

/-- C9 witness: a concrete reproducible run and the draw count for F. -/
theorem shuffle_seedable_uniform_witness :
    randomShuffleCube (fun _ => (0 : Fin 18)) 2 initState =
      randomShuffleCube (fun _ => (0 : Fin 18)) 2 initState ∧
    ((Finset.univ : Finset (Fin 18)).filter fun k => moveOfFin k = MOVE.F).card = 1 :=
  ⟨shuffle_seedable_uniform.1 (fun _ => (0 : Fin 18)) 2 initState initState rfl,
   shuffle_seedable_uniform.2 MOVE.F⟩

/-- C10: every query operation — `getColor`, `isSolved`, `print`,
`getCornerColorString`, `getCornerIndex`, `getCornerOrientation`, all
declared const in the header — leaves the cube state unchanged. -/
theorem queries_preserve_state (q : Query) (S : CubeState) :
    (runQuery q S).1 = S := by
  cases q <;> rfl

end RubiksVerify
